import Mathlib

/-!
Shallow embedding of the Vetro-Quiz backend (Python/FastAPI) in Lean 4.

Modelled modules:
* `main.py` — the `submit_quiz` handler (scoring engine) and the
  `update_user_profile` handler;
* `database.py` — user lookups, `create_or_get_google_user`,
  `update_user_google_id`, `create_user`;
* `auth_dependencies.py` — the access-control gate
  (`get_current_user`, `get_current_active_user`, `get_current_admin_user`);
* `google_auth.py` — `GoogleAuth.verify_google_token`;
* `auth_utils.py` — absent from the provided sources; its token
  issue/validate operations are modelled from the specification (§4.3).

Machine floats are modelled as exact rationals; Python's `round(x, 2)`
(half-to-even) is modelled by `roundTo2`.  Python dicts are modelled as
association lists queried by first match (`lookupAnswer` / key sets in
profile updates).  `raise HTTPException` / `except` control flow is
modelled with `Except`.
-/

/-- HTTP error carrying a status code and a detail string, modelling
`fastapi.HTTPException`. -/
structure HTTPError where
  status : Nat
  detail : String
deriving DecidableEq

/-- Row of the `questions` table (`database.py`): integer primary key,
text, JSON-encoded options, 0-based correct option index. -/
structure QuestionRow where
  id : Int
  question_text : String
  options : List String
  correct_option : Int
deriving DecidableEq

/-- Per-question result returned by `submit_quiz`
(model `QuestionWithAnswer` in `models.py`). -/
structure QuestionWithAnswer where
  id : Int
  question_text : String
  options : List String
  correct_option : Int
  user_answer : Option Int
  is_correct : Bool
deriving DecidableEq

/-- Aggregate result of a quiz submission (model `QuizResult` in
`models.py`); `percentage` is an exact rational standing for the float. -/
structure QuizResult where
  score : Nat
  total_questions : Nat
  percentage : ℚ
  results : List QuestionWithAnswer
deriving DecidableEq

/-- Python `dict.get`: first binding of the key in the association list,
`none` when absent (dict keys are unique, so first match is the match). -/
def lookupAnswer (answers : List (Int × Int)) (k : Int) : Option Int :=
  match answers with
  | [] => none
  | (k2, v) :: rest => if k2 = k then some v else lookupAnswer rest k

deriving instance DecidableEq for Except

/-- Rounding half to even of a rational to an integer, the semantics of
Python's `round` on exact values. -/
def round_half_even (x : ℚ) : Int :=
  if x - (⌊x⌋ : ℚ) < 1 / 2 then ⌊x⌋
  else if 1 / 2 < x - (⌊x⌋ : ℚ) then ⌊x⌋ + 1
  else if ⌊x⌋ % 2 = 0 then ⌊x⌋ else ⌊x⌋ + 1

/-- Python `round(x, 2)` on exact values. -/
def roundTo2 (x : ℚ) : ℚ := (round_half_even (x * 100) : ℚ) / 100

/-- Direct transcription of
`percentage = (score / total_questions * 100) if total_questions > 0 else 0`
in `main.py` (`submit_quiz`). -/
def computePercentageRaw (score total : Nat) : ℚ :=
  if 0 < total then (score : ℚ) / (total : ℚ) * 100 else 0

/-- Body of the per-question loop in `submit_quiz` (`main.py` lines
111–127): look the question id up in the submitted dict, mark correct
exactly when the submitted option equals `correct_option`. -/
def scoreRow (answers : List (Int × Int)) (q : QuestionRow) : QuestionWithAnswer :=
  let ua := lookupAnswer answers q.id
  { id := q.id
    question_text := q.question_text
    options := q.options
    correct_option := q.correct_option
    user_answer := ua
    is_correct := match ua with
      | some a => a == q.correct_option
      | none => false }

/-- SQL `SELECT ... FROM questions ORDER BY id`: the stored rows sorted by
ascending id. -/
def sortById (db : List QuestionRow) : List QuestionRow :=
  List.insertionSort (fun a b => a.id ≤ b.id) db

/-- Body of the `try` block of the `submit_quiz` handler (`main.py` lines
96–137): read the rows ordered by id, 404 when there are none, otherwise
score each row in order and aggregate. -/
def submitQuizCore (db : List QuestionRow) (answers : List (Int × Int)) :
    Except HTTPError QuizResult :=
  let rows := sortById db
  if rows.isEmpty then
    .error ⟨404, "No questions found"⟩
  else
    let results := rows.map (scoreRow answers)
    let score := results.countP (fun r => r.is_correct)
    let total := results.length
    .ok { score := score
          total_questions := total
          percentage := roundTo2 (computePercentageRaw score total)
          results := results }

/-- The `submit_quiz` handler including its blanket `except Exception`
clause, which also catches the handler's own `HTTPException` (FastAPI's
`HTTPException` derives from `Exception`) and rewraps it as a 500 whose
detail embeds `str(e)` = `"{status}: {detail}"`. -/
def submit_quiz (db : List QuestionRow) (answers : List (Int × Int)) :
    Except HTTPError QuizResult :=
  match submitQuizCore db answers with
  | .ok r => .ok r
  | .error e =>
      .error ⟨500, "Error processing quiz submission: " ++ toString e.status ++ ": " ++ e.detail⟩

/-- Modelled from the spec: `auth_utils.py` (the Token Issuer/Validator) is
imported by `main.py` and `auth_dependencies.py` but is missing from the
provided sources.  Per §4.3, tokens are signed, time-limited, and embed
subject = account id, issued-at, expiry, and a type discriminator; the
signing key is process-wide configuration. -/
structure AuthCfg where
  key : String
  accessTTL : Nat
  refreshTTL : Nat
deriving DecidableEq

/-- Modelled from the spec: claims carried by a token (§4.3, §3 "Token
pair"): subject, issued-at, expiry, type discriminator. -/
structure TokenPayload where
  sub : String
  iat : Nat
  exp : Nat
  typ : String
deriving DecidableEq

/-- Modelled from the spec: a signed claims structure; `sig` records the
key the token was signed with, standing for the signature. -/
structure SignedToken where
  payload : TokenPayload
  sig : String
deriving DecidableEq

/-- Shape of the value returned by `generate_tokens` (used by the `Token`
response model in `auth_models.py`). -/
structure TokenPair where
  access_token : SignedToken
  refresh_token : SignedToken
  token_type : String
  expires_in : Nat
deriving DecidableEq

/-- Modelled from the spec: the three distinct validation failure kinds of
§4.3: `InvalidToken` (signature/format wrong), `ExpiredToken` (past
expiry), `WrongTokenType` (type claim differs from the expected type). -/
inductive TokenError where
  | invalidToken
  | expiredToken
  | wrongTokenType
deriving DecidableEq

/-- Modelled from the spec: `issue(account)` returns an access/refresh
token pair; both embed subject = account id and a `type` claim; access
tokens get the short TTL and refresh tokens the long one. -/
def generate_tokens (cfg : AuthCfg) (userId : String) (now : Nat) : TokenPair :=
  { access_token := ⟨⟨userId, now, now + cfg.accessTTL, "access"⟩, cfg.key⟩
    refresh_token := ⟨⟨userId, now, now + cfg.refreshTTL, "refresh"⟩, cfg.key⟩
    token_type := "bearer"
    expires_in := cfg.accessTTL }

/-- Modelled from the spec: `validate(token, expected_type)` checks
signature, then expiry ("past expiry" fails), then the type claim, in the
fixed gate order of §4.4, each stage short-circuiting with its own error
kind. -/
def verify_token (cfg : AuthCfg) (token : SignedToken) (expected : String) (now : Nat) :
    Except TokenError TokenPayload :=
  if token.sig ≠ cfg.key then .error .invalidToken
  else if token.payload.exp < now then .error .expiredToken
  else if token.payload.typ ≠ expected then .error .wrongTokenType
  else .ok token.payload

/-- Row of the `users` table (`database.py` schema): text primary key,
unique email, optional google id / password hash, active and admin flags
defaulting to 1 and 0. Timestamps are abstracted to naturals. -/
structure UserRow where
  id : String
  email : String
  name : String
  phone : Option String := none
  address : Option String := none
  google_id : Option String := none
  hashed_password : Option String := none
  is_active : Bool := true
  is_admin : Bool := false
  created_at : Nat := 0
  updated_at : Nat := 0
deriving DecidableEq

/-- The `get_user_by_email` query of `database.py`:
`SELECT * FROM users WHERE email = ? AND is_active = 1`. -/
def get_user_by_email (db : List UserRow) (email : String) : Option UserRow :=
  db.find? (fun u => u.email == email && u.is_active)

/-- The `get_user_by_id` query of `database.py`:
`SELECT * FROM users WHERE id = ? AND is_active = 1`. -/
def get_user_by_id (db : List UserRow) (userId : String) : Option UserRow :=
  db.find? (fun u => u.id == userId && u.is_active)

/-- The `get_user_by_google_id` query of `database.py`:
`SELECT * FROM users WHERE google_id = ? AND is_active = 1`. -/
def get_user_by_google_id (db : List UserRow) (googleId : String) : Option UserRow :=
  db.find? (fun u => u.google_id == some googleId && u.is_active)

/-- The `update_user_google_id` statement of `database.py`:
`UPDATE users SET google_id = ?, updated_at = CURRENT_TIMESTAMP WHERE id = ?`. -/
def update_user_google_id (db : List UserRow) (userId googleId : String) (now : Nat) :
    List UserRow :=
  db.map fun u =>
    if u.id = userId then { u with google_id := some googleId, updated_at := now } else u

/-- The `create_user` insert of `database.py`: a fresh uuid (passed here as
`newId`) and an INSERT of (id, email, name, hashed_password, google_id,
phone, address); `is_active`/`is_admin` take their schema defaults. -/
def create_user (db : List UserRow) (newId email name : String)
    (hashed_password googleId phone address : Option String) : String × List UserRow :=
  (newId, db ++ [{ id := newId, email := email, name := name,
                   hashed_password := hashed_password, google_id := googleId,
                   phone := phone, address := address }])

/-- Normalized claims produced by `GoogleAuth.verify_google_token`
(`google_auth.py`). -/
structure GoogleUserInfo where
  google_id : String
  email : String
  name : String
  picture : String
  email_verified : Bool
deriving DecidableEq

/-- The `create_or_get_google_user` three-way lookup of `database.py`:
by google id first; else by email with google-id backfill; else create a
new user with no password hash. -/
def create_or_get_google_user (db : List UserRow) (g : GoogleUserInfo)
    (newId : String) (now : Nat) : String × List UserRow :=
  match get_user_by_google_id db g.google_id with
  | some u => (u.id, db)
  | none =>
    match get_user_by_email db g.email with
    | some u => (u.id, update_user_google_id db u.id g.google_id now)
    | none => create_user db newId g.email g.name none (some g.google_id) none none

/-- Configuration of `google_auth.py`: `GOOGLE_CLIENT_ID` from the
environment (`none` when unset). -/
structure GoogleCfg where
  clientId : Option String
deriving DecidableEq

/-- Body of Google's tokeninfo answer as read by `verify_google_token`:
each field already carries the `dict.get` default used by the code
(empty string, `'false'` for `email_verified`, 0 for `exp`, `none` for a
missing `aud`). -/
structure TokenInfo where
  aud : Option String
  exp : Int
  sub : String
  email : String
  name : String
  picture : String
  email_verified : String
deriving DecidableEq

/-- Outcome of the `requests.get` call to the tokeninfo endpoint:
a network-level exception, a 200 answer whose body fails JSON parsing
(`ValueError`), or an HTTP answer with a status code and parsed body. -/
inductive ProviderResponse where
  | networkFailure (msg : String)
  | badJson (msg : String)
  | response (statusCode : Nat) (info : TokenInfo)
deriving DecidableEq

/-- Exception leaving the `try` block of `verify_google_token`: an
`HTTPException` raised by the checks, a `ValueError` from JSON parsing, or
any other exception (network failure). -/
inductive GoogleAuthRaise where
  | httpExc (status : Nat) (detail : String)
  | valueError (msg : String)
  | otherExc (msg : String)
deriving DecidableEq

/-- Body of the `try` block of `GoogleAuth.verify_google_token`
(`google_auth.py` lines 19–65): status check, audience check, expiry
check against current time, then email-verified check. -/
def verifyGoogleTokenTry (cfg : GoogleCfg) (now : Int) (resp : ProviderResponse) :
    Except GoogleAuthRaise GoogleUserInfo :=
  match resp with
  | .networkFailure msg => .error (.otherExc msg)
  | .badJson msg => .error (.valueError msg)
  | .response statusCode info =>
    if statusCode ≠ 200 then .error (.httpExc 401 "Invalid Google token")
    else if info.aud ≠ cfg.clientId then .error (.httpExc 401 "Invalid audience")
    else if info.exp < now then .error (.httpExc 401 "Token expired")
    else
      let ui : GoogleUserInfo :=
        { google_id := info.sub, email := info.email, name := info.name,
          picture := info.picture,
          email_verified := info.email_verified.toLower == "true" }
      if ¬ ui.email_verified then .error (.httpExc 400 "Google email not verified")
      else .ok ui

/-- The whole of `GoogleAuth.verify_google_token` including its `except`
clauses: a `ValueError` becomes a 401; every other exception — including
the `HTTPException`s raised inside the `try` block, since FastAPI's
`HTTPException` derives from `Exception` — is rewrapped as a 500 whose
detail embeds `str(e)`. -/
def verify_google_token (cfg : GoogleCfg) (now : Int) (resp : ProviderResponse) :
    Except HTTPError GoogleUserInfo :=
  match verifyGoogleTokenTry cfg now resp with
  | .ok ui => .ok ui
  | .error (.valueError msg) => .error ⟨401, "Invalid Google token: " ++ msg⟩
  | .error (.httpExc s d) =>
      .error ⟨500, "Google authentication failed: " ++ toString s ++ ": " ++ d⟩
  | .error (.otherExc msg) => .error ⟨500, "Google authentication failed: " ++ msg⟩

/-- The `get_current_user` dependency (`auth_dependencies.py`): missing
credentials give `none`; a token that fails validation gives `none` (the
`except HTTPException: return None` clause); a subject that resolves to no
user row gives `none`; otherwise the resolved user. -/
def get_current_user (db : List UserRow) (cfg : AuthCfg) (now : Nat)
    (credentials : Option SignedToken) : Option UserRow :=
  match credentials with
  | none => none
  | some cred =>
    match verify_token cfg cred "access" now with
    | .error _ => none
    | .ok payload =>
      match get_user_by_id db payload.sub with
      | none => none
      | some u => some u

/-- The `get_current_active_user` dependency (`auth_dependencies.py`):
401 when no user was resolved, 400 when the resolved user is inactive,
else the user. -/
def get_current_active_user (db : List UserRow) (cfg : AuthCfg) (now : Nat)
    (credentials : Option SignedToken) : Except HTTPError UserRow :=
  match get_current_user db cfg now credentials with
  | none => .error ⟨401, "Not authenticated"⟩
  | some u => if !u.is_active then .error ⟨400, "Inactive user"⟩ else .ok u

/-- The `get_current_admin_user` dependency (`auth_dependencies.py`):
403 when the active user is not an admin. -/
def get_current_admin_user (db : List UserRow) (cfg : AuthCfg) (now : Nat)
    (credentials : Option SignedToken) : Except HTTPError UserRow :=
  match get_current_active_user db cfg now credentials with
  | .error e => .error e
  | .ok u => if !u.is_admin then .error ⟨403, "Not enough permissions"⟩ else .ok u

/-- Whitelist `allowed_fields = ['name', 'phone', 'address']` of the
profile-update handler (`main.py` line 364). -/
def allowedFields : List String := ["name", "phone", "address"]

/-- The dict comprehension of `update_user_profile`:
`{k: v for k, v in profile_data.items() if k in allowed_fields and v is not None}`. -/
def filterProfileData (pd : List (String × Option String)) : List (String × Option String) :=
  pd.filter (fun kv => allowedFields.contains kv.1 && kv.2.isSome)

/-- Effect of one `field = ?` item of the generated SET clause on the
user's row. -/
def applyProfileField (u : UserRow) (kv : String × Option String) : UserRow :=
  match kv.2 with
  | none => u
  | some v =>
    if kv.1 = "name" then { u with name := v }
    else if kv.1 = "phone" then { u with phone := some v }
    else if kv.1 = "address" then { u with address := some v }
    else u

/-- The `update_user_profile` handler (`main.py` lines 354–398): filter the
request to whitelisted non-null fields, 400 (leaving the table unchanged)
when none remain, else
`UPDATE users SET <fields>, updated_at = CURRENT_TIMESTAMP WHERE id = ?`
on the calling user's id.  Returns the handler outcome and the table
after the request. -/
def update_user_profile (db : List UserRow) (userId : String)
    (pd : List (String × Option String)) (now : Nat) :
    Except HTTPError Unit × List UserRow :=
  let upd := filterProfileData pd
  if upd.isEmpty then (.error ⟨400, "No valid fields to update"⟩, db)
  else
    (.ok (), db.map fun u =>
      if u.id = userId then { upd.foldl applyProfileField u with updated_at := now } else u)

/-- Concrete inactive account used to exercise the access-control gate. -/
def inactiveUser : UserRow :=
  { id := "u1", email := "x@example.com", name := "X", is_active := false }

/-- User table holding only the inactive account. -/
def gateDb : List UserRow := [inactiveUser]

/-- Concrete token configuration for the gate scenario. -/
def gateCfg : AuthCfg := { key := "secret", accessTTL := 900, refreshTTL := 86400 }

/-- Valid, unexpired access token for the inactive account, issued at time
0. -/
def gateToken : SignedToken := (generate_tokens gateCfg "u1" 0).access_token

/-- Tuple of the account-row fields that a profile update must never
touch: id, email, google_id, hashed_password, is_active, is_admin,
created_at. -/
def frameFields (u : UserRow) :
    String × String × Option String × Option String × Bool × Bool × Nat :=
  (u.id, u.email, u.google_id, u.hashed_password, u.is_active, u.is_admin, u.created_at)

/-- Two-question table, deliberately stored in descending id order. -/
def wQdb : List QuestionRow :=
  [⟨2, "b", ["x", "y"], 1⟩, ⟨1, "a", ["x", "y"], 0⟩]

/-- Submission answering both questions with out-of-range options. -/
def wAns : List (Int × Int) := [(1, 10), (2, 20)]

/-- The same submission mapping as `wAns` written in the opposite
insertion order. -/
def wAns2 : List (Int × Int) := [(2, 20), (1, 10)]

/-- Result of submitting `wAns` against `wQdb`. -/
def wQres : QuizResult :=
  { score := 0
    total_questions := 2
    percentage := roundTo2 (computePercentageRaw 0 2)
    results := [⟨1, "a", ["x", "y"], 0, some 10, false⟩,
                ⟨2, "b", ["x", "y"], 1, some 20, false⟩] }

/-- Result of submitting the empty answer map against `wQdb`. -/
def wQres0 : QuizResult :=
  { score := 0
    total_questions := 2
    percentage := roundTo2 (computePercentageRaw 0 2)
    results := [⟨1, "a", ["x", "y"], 0, none, false⟩,
                ⟨2, "b", ["x", "y"], 1, none, false⟩] }

/-- User table holding one password-based account without a google id. -/
def wGdb : List UserRow :=
  [{ id := "u1", email := "a@b.c", name := "A", hashed_password := some "h" }]

/-- User table holding one account already linked to google id g1. -/
def wG2db : List UserRow :=
  [{ id := "u2", email := "z@b.c", name := "Z", google_id := some "g1" }]

/-- Bridge result whose email matches the password-based account of
`wGdb`. -/
def wGinfo : GoogleUserInfo :=
  { google_id := "g1", email := "a@b.c", name := "A G", picture := "", email_verified := true }

/-- Two-user table for exercising the profile-update frame. -/
def wPdb : List UserRow :=
  [{ id := "u1", email := "a@b.c", name := "A" },
   { id := "u2", email := "b@b.c", name := "B" }]

/-- Profile-update request mixing a whitelisted field, a non-whitelisted
field and a null value. -/
def wPd : List (String × Option String) :=
  [("name", some "New"), ("email", some "evil"), ("phone", none)]

instance : IsTotal QuestionRow (fun a b => a.id ≤ b.id) :=
  ⟨fun a b => Int.le_total a.id b.id⟩

instance : IsTrans QuestionRow (fun a b => a.id ≤ b.id) :=
  ⟨fun _ _ _ hab hbc => le_trans hab hbc⟩

lemma sortById_isEmpty_false {db : List QuestionRow} (h : db ≠ []) :
    (sortById db).isEmpty = false := by
  rw [List.isEmpty_eq_false]
  intro hs
  apply h
  have hl := congrArg List.length hs
  rw [sortById, List.length_insertionSort] at hl
  exact List.length_eq_zero.1 hl

lemma submit_quiz_ok (db : List QuestionRow) (answers : List (Int × Int)) (h : db ≠ []) :
    submit_quiz db answers = .ok
      { score := ((sortById db).map (scoreRow answers)).countP (fun r => r.is_correct)
        total_questions := ((sortById db).map (scoreRow answers)).length
        percentage := roundTo2 (computePercentageRaw
          (((sortById db).map (scoreRow answers)).countP (fun r => r.is_correct))
          (((sortById db).map (scoreRow answers)).length))
        results := (sortById db).map (scoreRow answers) } := by
  simp [submit_quiz, submitQuizCore, sortById_isEmpty_false h]

lemma submit_quiz_ok_elim {db : List QuestionRow} {answers : List (Int × Int)} {r : QuizResult}
    (h : submit_quiz db answers = .ok r) :
    db ≠ [] ∧ r.results = (sortById db).map (scoreRow answers) := by
  rcases eq_or_ne db [] with rfl | hne
  · exact absurd h (by simp [submit_quiz, submitQuizCore, sortById])
  · rw [submit_quiz_ok db answers hne] at h
    cases h
    exact ⟨hne, rfl⟩

lemma applyProfileField_frameFields (u : UserRow) (kv : String × Option String) :
    frameFields (applyProfileField u kv) = frameFields u := by
  rcases kv with ⟨k, v⟩
  cases v
  · rfl
  · simp only [applyProfileField]
    split_ifs <;> rfl

lemma foldl_applyProfileField_frameFields (l : List (String × Option String)) (u : UserRow) :
    frameFields (l.foldl applyProfileField u) = frameFields u := by
  induction l generalizing u with
  | nil => rfl
  | cons kv rest ih => rw [List.foldl_cons, ih, applyProfileField_frameFields]

lemma update_user_profile_snd (db : List UserRow) (userId : String)
    (pd : List (String × Option String)) (now : Nat) :
    (update_user_profile db userId pd now).2 =
      if (filterProfileData pd).isEmpty then db
      else db.map fun u =>
        if u.id = userId then
          { (filterProfileData pd).foldl applyProfileField u with updated_at := now }
        else u := by
  simp only [update_user_profile]
  split <;> rfl

/-- C1: the claim says a valid token for an inactive account fails the
authenticated tier with AccountInactive (400).  On the code it does not:
`get_user_by_id` filters `WHERE is_active = 1`, so the subject of a valid,
unexpired access token for an inactive account resolves to no row and the
gate answers 401 "Not authenticated"; the 400 "Inactive user" branch of
`get_current_active_user` is unreachable.  This theorem evaluates the gate
at that failing input. -/
theorem inactive_account_gate_returns_401 :
    inactiveUser.is_active = false ∧
    gateToken.payload.sub = inactiveUser.id ∧
    verify_token gateCfg gateToken "access" 10 = .ok gateToken.payload ∧
    get_current_active_user gateDb gateCfg 10 (some gateToken) =
      .error ⟨401, "Not authenticated"⟩ :=
  ⟨rfl, rfl, rfl, rfl⟩

/-- C2: for every non-empty stored question set and every submitted answer
map, the scoring operation returns score in [0, N] (score is a natural,
bounded by N = the number of stored questions) and percentage =
round(100 × score / N, 2); and on 3 questions with correct options
[1, 2, 1] and submission {1:1, 2:2, 3:0} it returns score 2, total 3,
percentage 66.67. -/
theorem submit_quiz_score_bounds_and_percentage :
    (∀ (db : List QuestionRow) (answers : List (Int × Int)), db ≠ [] →
      ∃ r, submit_quiz db answers = .ok r ∧
        r.total_questions = db.length ∧
        r.score ≤ r.total_questions ∧
        r.percentage = roundTo2 (100 * (r.score : ℚ) / (r.total_questions : ℚ))) ∧
    (∃ r, submit_quiz
        [⟨1, "q1", ["a", "b"], 1⟩, ⟨2, "q2", ["a", "b", "c"], 2⟩, ⟨3, "q3", ["a", "b"], 1⟩]
        [(1, 1), (2, 2), (3, 0)] = .ok r ∧
      r.score = 2 ∧ r.total_questions = 3 ∧ r.percentage = 6667 / 100) := by
  constructor
  · intro db answers h
    refine ⟨_, submit_quiz_ok db answers h, ?_, ?_, ?_⟩
    · simp [sortById, List.length_insertionSort]
    · exact List.countP_le_length _
    · have hpos : 0 < ((sortById db).map (scoreRow answers)).length := by
        simp only [List.length_map, sortById, List.length_insertionSort]
        exact List.length_pos.2 h
      simp only [computePercentageRaw, if_pos hpos]
      congr 1
      ring
  · refine ⟨_, submit_quiz_ok _ _ (by decide), rfl, rfl, ?_⟩
    show roundTo2 (computePercentageRaw 2 3) = 6667 / 100
    have hf : ⌊(20000 : ℚ) / 3⌋ = 6666 := by
      rw [Int.floor_eq_iff]
      norm_num
    rw [computePercentageRaw, roundTo2]
    norm_num
    rw [round_half_even, hf]
    norm_num

/-- C2 witness: the universally quantified part applied to a concrete
one-question set and the empty submission. -/
theorem submit_quiz_score_bounds_and_percentage_witness :
    ∃ r, submit_quiz [⟨1, "q", ["a", "b"], 0⟩] [] = .ok r ∧
      r.total_questions = [(⟨1, "q", ["a", "b"], 0⟩ : QuestionRow)].length ∧
      r.score ≤ r.total_questions ∧
      r.percentage = roundTo2 (100 * (r.score : ℚ) / (r.total_questions : ℚ)) :=
  submit_quiz_score_bounds_and_percentage.1 [⟨1, "q", ["a", "b"], 0⟩] [] (by decide)

/-- C3: the per-question result is total — it keeps the question's id and
answer key; a missing submission gives user_answer = none and
is_correct = false; a present submission v gives user_answer = some v and
is_correct exactly when v equals the correct option, so an out-of-range or
negative v is merely unequal and scored incorrect, no exception path
exists. -/
theorem scoreRow_total_semantics :
    ∀ (answers : List (Int × Int)) (q : QuestionRow),
      ((scoreRow answers q).id = q.id ∧
       (scoreRow answers q).correct_option = q.correct_option) ∧
      (lookupAnswer answers q.id = none →
        (scoreRow answers q).user_answer = none ∧ (scoreRow answers q).is_correct = false) ∧
      (∀ v, lookupAnswer answers q.id = some v →
        (scoreRow answers q).user_answer = some v ∧
        ((scoreRow answers q).is_correct = true ↔ v = q.correct_option)) := by
  intro answers q
  refine ⟨⟨rfl, rfl⟩, fun hn => ?_, fun v hv => ?_⟩
  · simp [scoreRow, hn]
  · simp [scoreRow, hv]

/-- C3 witness: an out-of-range answer (5 on a two-option question) is
scored incorrect, and an unanswered question gets user_answer = none. -/
theorem scoreRow_total_semantics_witness :
    ((scoreRow [(1, 5)] ⟨1, "q", ["a", "b"], 1⟩).user_answer = some 5 ∧
     ((scoreRow [(1, 5)] ⟨1, "q", ["a", "b"], 1⟩).is_correct = true ↔ (5 : Int) = 1)) ∧
    ((scoreRow [(1, 5)] ⟨2, "s", ["a", "b"], 0⟩).user_answer = none ∧
     (scoreRow [(1, 5)] ⟨2, "s", ["a", "b"], 0⟩).is_correct = false) :=
  ⟨(scoreRow_total_semantics [(1, 5)] ⟨1, "q", ["a", "b"], 1⟩).2.2 5 (by decide),
   (scoreRow_total_semantics [(1, 5)] ⟨2, "s", ["a", "b"], 0⟩).2.1 (by decide)⟩

/-- C4 counterexample: with the stored question set empty, submitting the
empty answer map does not succeed with total 0 and percentage 0 — the
handler raises "No questions found" (404, rewrapped as a 500 by the
handler's blanket exception clause). -/
theorem submit_quiz_empty_returns_error :
    submit_quiz [] [] =
      .error ⟨500, "Error processing quiz submission: 404: No questions found"⟩ := rfl

/-- C4 amended: when the stored question set is empty, scoring any
submission never divides by zero but fails with the "No questions found"
error (status 404 at the raise site, surfaced as 500) instead of
succeeding. -/
theorem submit_quiz_empty_always_errors :
    ∀ answers, submit_quiz [] answers =
      .error ⟨500, "Error processing quiz submission: 404: No questions found"⟩ :=
  fun _ => rfl

/-- C5: the results list has exactly one entry per stored question, in
ascending question-id order; the output depends only on the submission's
key-to-value mapping, not its insertion order; and a submission entry
whose id matches no stored question leaves the whole response unchanged. -/
theorem submit_quiz_order_and_unknown_ids :
    (∀ (db : List QuestionRow) answers r, submit_quiz db answers = .ok r →
      List.Pairwise (fun a b : QuestionWithAnswer => a.id ≤ b.id) r.results ∧
      (r.results.map (fun e => e.id)).Perm (db.map (fun q => q.id))) ∧
    (∀ (db : List QuestionRow) a1 a2,
      (∀ k, lookupAnswer a1 k = lookupAnswer a2 k) →
      submit_quiz db a1 = submit_quiz db a2) ∧
    (∀ (db : List QuestionRow) (k v : Int) answers,
      (∀ q ∈ db, q.id ≠ k) →
      submit_quiz db ((k, v) :: answers) = submit_quiz db answers) := by
  refine ⟨fun db answers r h => ?_, fun db a1 a2 hk => ?_, fun db k v answers hq => ?_⟩
  · obtain ⟨hne, hres⟩ := submit_quiz_ok_elim h
    constructor
    · rw [hres]
      refine List.pairwise_map.2 ?_
      have hs := List.sorted_insertionSort (r := fun a b : QuestionRow => a.id ≤ b.id) db
      exact hs.imp (fun hh => hh)
    · have hmm : r.results.map (fun e => e.id) = (sortById db).map (fun q => q.id) := by
        rw [hres, List.map_map]
        exact List.map_congr_left fun a _ => rfl
      rw [hmm]
      exact (List.perm_insertionSort _ db).map _
  · have hs : scoreRow a1 = scoreRow a2 := funext fun q => by
      simp [scoreRow, hk q.id]
    simp [submit_quiz, submitQuizCore, hs]
  · have hmap : (sortById db).map (scoreRow ((k, v) :: answers)) =
        (sortById db).map (scoreRow answers) := by
      refine List.map_congr_left fun q hmem => ?_
      have hmem2 : q ∈ db := by
        rw [sortById] at hmem
        exact (List.mem_insertionSort _).1 hmem
      have hne : ¬ (k = q.id) := fun hh => hq q hmem2 hh.symm
      simp [scoreRow, lookupAnswer, hne]
    have hcore : submitQuizCore db ((k, v) :: answers) = submitQuizCore db answers := by
      simp only [submitQuizCore, hmap]
    simp [submit_quiz, hcore]

/-- C5 witness: on a table stored in descending id order, results come out
ascending and permute the stored ids; reordering the submission dict and
adding the unknown question id 5 change nothing. -/
theorem submit_quiz_order_and_unknown_ids_witness :
    (List.Pairwise (fun a b : QuestionWithAnswer => a.id ≤ b.id) wQres.results ∧
      (wQres.results.map (fun e => e.id)).Perm (wQdb.map (fun q => q.id))) ∧
    submit_quiz wQdb wAns = submit_quiz wQdb wAns2 ∧
    submit_quiz wQdb ((5, 3) :: wAns) = submit_quiz wQdb wAns :=
  ⟨submit_quiz_order_and_unknown_ids.1 wQdb wAns wQres rfl,
   submit_quiz_order_and_unknown_ids.2.1 wQdb wAns wAns2 (by
      intro k
      by_cases h1 : (1 : Int) = k <;> by_cases h2 : (2 : Int) = k <;>
        simp [wAns, wAns2, lookupAnswer, h1, h2]
      omega),
   submit_quiz_order_and_unknown_ids.2.2 wQdb 5 3 wAns (by decide)⟩

/-- C6: account resolution after an OAuth exchange looks up by google id
first and returns that account with the table untouched; otherwise looks
up by email and backfills the google id onto that existing row — same
table length, emails and password hashes all unchanged (linking, not
duplicating); otherwise appends a fresh account with no password hash. -/
theorem create_or_get_google_user_resolution :
    ∀ (db : List UserRow) (g : GoogleUserInfo) (newId : String) (now : Nat),
      (∀ u, get_user_by_google_id db g.google_id = some u →
        create_or_get_google_user db g newId now = (u.id, db)) ∧
      (get_user_by_google_id db g.google_id = none →
        ∀ u, get_user_by_email db g.email = some u →
          create_or_get_google_user db g newId now =
            (u.id, update_user_google_id db u.id g.google_id now) ∧
          (update_user_google_id db u.id g.google_id now).length = db.length ∧
          (update_user_google_id db u.id g.google_id now).map
              (fun v => (v.email, v.hashed_password)) =
            db.map (fun v => (v.email, v.hashed_password))) ∧
      (get_user_by_google_id db g.google_id = none →
        get_user_by_email db g.email = none →
          create_or_get_google_user db g newId now =
            (newId, db ++ [{ id := newId, email := g.email, name := g.name,
                             google_id := some g.google_id }])) := by
  intro db g newId now
  refine ⟨fun u hu => ?_, fun h0 u hu => ?_, fun h0 h1 => ?_⟩
  · simp [create_or_get_google_user, hu]
  · refine ⟨by simp [create_or_get_google_user, h0, hu], ?_, ?_⟩
    · simp [update_user_google_id]
    · simp only [update_user_google_id, List.map_map]
      refine List.map_congr_left fun a _ => ?_
      by_cases hid : a.id = u.id <;> simp [hid]
  · simp [create_or_get_google_user, h0, h1, create_user]

/-- C6 witness: an exchange whose email matches the existing
password-based account of `wGdb` links the google id onto it; with a
google-linked table the first lookup hits; with an empty table a fresh
passwordless account is created. -/
theorem create_or_get_google_user_resolution_witness :
    (create_or_get_google_user wGdb wGinfo "new-id" 7 =
        ("u1", update_user_google_id wGdb "u1" "g1" 7) ∧
      (update_user_google_id wGdb "u1" "g1" 7).length = wGdb.length ∧
      (update_user_google_id wGdb "u1" "g1" 7).map (fun v => (v.email, v.hashed_password)) =
        wGdb.map (fun v => (v.email, v.hashed_password))) ∧
    create_or_get_google_user wG2db wGinfo "new-id" 7 = ("u2", wG2db) ∧
    create_or_get_google_user [] wGinfo "new-id" 7 =
      ("new-id", [] ++ [{ id := "new-id", email := "a@b.c", name := "A G",
                          google_id := some "g1" }]) :=
  ⟨(create_or_get_google_user_resolution wGdb wGinfo "new-id" 7).2.1 (by decide)
      { id := "u1", email := "a@b.c", name := "A", hashed_password := some "h" } (by decide),
   (create_or_get_google_user_resolution wG2db wGinfo "new-id" 7).1
      { id := "u2", email := "z@b.c", name := "Z", google_id := some "g1" } (by decide),
   (create_or_get_google_user_resolution [] wGinfo "new-id" 7).2.2 (by decide) (by decide)⟩

/-- C7 counterexample: a network-level failure of the tokeninfo call is
surfaced as a 500 "Google authentication failed" error, not as a
502-class ProviderUnavailable error. -/
theorem verify_google_token_network_failure_counterexample :
    verify_google_token ⟨some "client-id"⟩ 0 (.networkFailure "connection error") =
      .error ⟨500, "Google authentication failed: connection error"⟩ := rfl

/-- C7 amended: when the call to the provider's verification endpoint
fails at the network level, the exchange fails with a generic 500 error
whose detail embeds the exception text — the blanket `except Exception`
clause leaves no 502 path. -/
theorem verify_google_token_network_failure_500 :
    ∀ (cfg : GoogleCfg) (now : Int) (msg : String),
      verify_google_token cfg now (.networkFailure msg) =
        .error ⟨500, "Google authentication failed: " ++ msg⟩ :=
  fun _ _ _ => rfl

/-- C8: validating the freshly issued access token with expected type
"access" succeeds, while validating it with expected type "refresh", or
the refresh token with expected type "access", fails with WrongTokenType. -/
theorem token_type_discriminator :
    ∀ (cfg : AuthCfg) (userId : String) (now : Nat),
      verify_token cfg (generate_tokens cfg userId now).access_token "access" now =
        .ok ⟨userId, now, now + cfg.accessTTL, "access"⟩ ∧
      verify_token cfg (generate_tokens cfg userId now).access_token "refresh" now =
        .error .wrongTokenType ∧
      verify_token cfg (generate_tokens cfg userId now).refresh_token "access" now =
        .error .wrongTokenType := by
  intro cfg userId now
  refine ⟨?_, ?_, ?_⟩ <;> simp [verify_token, generate_tokens]

/-- C9: every successful submission response carries, entry by entry, the
id and correct_option of every stored question — in particular the full
answer key is a permutation of the stored one, for any submission
including the empty anonymous one (the handler takes no user identity). -/
theorem submit_quiz_reveals_answer_key :
    ∀ (db : List QuestionRow) answers r, submit_quiz db answers = .ok r →
      r.results.map (fun e => (e.id, e.correct_option)) =
        (sortById db).map (fun q => (q.id, q.correct_option)) ∧
      (r.results.map (fun e => (e.id, e.correct_option))).Perm
        (db.map (fun q => (q.id, q.correct_option))) := by
  intro db answers r h
  obtain ⟨hne, hres⟩ := submit_quiz_ok_elim h
  have heq : r.results.map (fun e => (e.id, e.correct_option)) =
      (sortById db).map (fun q => (q.id, q.correct_option)) := by
    rw [hres, List.map_map]
    exact List.map_congr_left fun a _ => rfl
  refine ⟨heq, ?_⟩
  rw [heq]
  exact (List.perm_insertionSort _ db).map _

/-- C9 witness: submitting the empty answer map against `wQdb` already
returns both correct options. -/
theorem submit_quiz_reveals_answer_key_witness :
    wQres0.results.map (fun e => (e.id, e.correct_option)) =
      (sortById wQdb).map (fun q => (q.id, q.correct_option)) ∧
    (wQres0.results.map (fun e => (e.id, e.correct_option))).Perm
      (wQdb.map (fun q => (q.id, q.correct_option))) :=
  submit_quiz_reveals_answer_key wQdb [] wQres0 rfl

/-- C10: a profile update with no whitelisted non-null field fails with
400 leaving the table unchanged; otherwise the table keeps its length,
every row keeps its id, email, google_id, hashed_password, is_active,
is_admin and created_at, rows of other users are untouched entirely, and
dropping a non-whitelisted key or a null-valued key never changes the
outcome. -/
theorem update_user_profile_frame :
    ∀ (db : List UserRow) (userId : String)
      (pd : List (String × Option String)) (now : Nat),
      (filterProfileData pd = [] →
        update_user_profile db userId pd now =
          (.error ⟨400, "No valid fields to update"⟩, db)) ∧
      (update_user_profile db userId pd now).2.length = db.length ∧
      (∀ i : Nat,
        ((update_user_profile db userId pd now).2[i]?).map frameFields =
          (db[i]?).map frameFields ∧
        (∀ u, db[i]? = some u → u.id ≠ userId →
          (update_user_profile db userId pd now).2[i]? = some u)) ∧
      (∀ (k : String) (v : Option String), k ∉ allowedFields →
        update_user_profile db userId ((k, v) :: pd) now =
          update_user_profile db userId pd now) ∧
      (∀ k : String, update_user_profile db userId ((k, (none : Option String)) :: pd) now =
        update_user_profile db userId pd now) := by
  intro db userId pd now
  refine ⟨fun hempty => ?_, ?_, fun i => ⟨?_, fun u hu hne => ?_⟩, fun k v hk => ?_, fun k => ?_⟩
  · simp [update_user_profile, hempty]
  · simp only [update_user_profile]
    split
    · rfl
    · simp
  · rw [update_user_profile_snd]
    by_cases he : (filterProfileData pd).isEmpty = true
    · rw [if_pos he]
    · rw [if_neg he, List.getElem?_map]
      cases hdb : db[i]? with
      | none => rfl
      | some u =>
        simp only [Option.map_some']
        by_cases hid : u.id = userId
        · rw [if_pos hid]
          have h3 : frameFields { (filterProfileData pd).foldl applyProfileField u with
              updated_at := now } =
              frameFields ((filterProfileData pd).foldl applyProfileField u) := rfl
          rw [h3, foldl_applyProfileField_frameFields]
        · rw [if_neg hid]
  · rw [update_user_profile_snd]
    by_cases he : (filterProfileData pd).isEmpty = true
    · rw [if_pos he]
      exact hu
    · rw [if_neg he, List.getElem?_map, hu]
      simp [hne]
  · have hfilter : filterProfileData ((k, v) :: pd) = filterProfileData pd := by
      simp [filterProfileData, hk]
    simp only [update_user_profile, hfilter]
  · have hfilter : filterProfileData ((k, none) :: pd) = filterProfileData pd := by
      simp [filterProfileData]
    simp only [update_user_profile, hfilter]

/-- C10 witness: on the two-user table, a request with only a
non-whitelisted key fails with 400 leaving the table as is; the mixed
request `wPd` keeps the length, preserves every frame field of row 0 and
leaves the other user's row untouched; and dropping the "email" key or a
null "phone" key changes nothing. -/
theorem update_user_profile_frame_witness :
    update_user_profile wPdb "u2" [("email", some "evil")] 9 =
      (.error ⟨400, "No valid fields to update"⟩, wPdb) ∧
    (update_user_profile wPdb "u2" wPd 9).2.length = wPdb.length ∧
    ((update_user_profile wPdb "u2" wPd 9).2[0]?).map frameFields =
      (wPdb[0]?).map frameFields ∧
    (update_user_profile wPdb "u2" wPd 9).2[0]? =
      some { id := "u1", email := "a@b.c", name := "A" } ∧
    update_user_profile wPdb "u2" (("email", some "x") :: wPd) 9 =
      update_user_profile wPdb "u2" wPd 9 ∧
    update_user_profile wPdb "u2" (("phone", (none : Option String)) :: wPd) 9 =
      update_user_profile wPdb "u2" wPd 9 :=
  ⟨(update_user_profile_frame wPdb "u2" [("email", some "evil")] 9).1 (by decide),
   (update_user_profile_frame wPdb "u2" wPd 9).2.1,
   ((update_user_profile_frame wPdb "u2" wPd 9).2.2.1 0).1,
   ((update_user_profile_frame wPdb "u2" wPd 9).2.2.1 0).2
      { id := "u1", email := "a@b.c", name := "A" } (by decide) (by decide),
   (update_user_profile_frame wPdb "u2" wPd 9).2.2.2.1 "email" (some "x") (by decide),
   (update_user_profile_frame wPdb "u2" wPd 9).2.2.2.2 "phone"⟩
